import Mathlib

/-!
Verification of the `qr-present` toolkit (three Python batch scripts:
`build_excel_from_images.py`, `build_site.py`, `rename_and_convert_to_jpeg.py`)
against its natural-language specification.

The scripts are shallowly embedded: pure Python helpers become Lean functions,
OS interactions (stat, mdls, the image library) become explicit input data, and
Python exceptions become `Except`/`Option` results.  Decimal formatting
(`str`, `zfill`, `strftime`) is modelled over `Nat`.
-/

/-! ## Decimal strings: `str(n)`, `int(s)`, `str.zfill` -/

/-- Fuel-driven digit extraction (structural recursion so that all proofs
can evaluate it); `fuel ≥ n` always suffices. -/
def natDigitsAux : Nat → Nat → List Nat
  | 0, n => [n]
  | fuel + 1, n => if n < 10 then [n] else natDigitsAux fuel (n / 10) ++ [n % 10]

/-- Decimal digits of `n`, most significant first (the digits of Python `str(n)`). -/
def natDigits (n : Nat) : List Nat := natDigitsAux n n

theorem natDigitsAux_congr : ∀ f1 : Nat, ∀ f2 n : Nat, n ≤ f1 → n ≤ f2 →
    natDigitsAux f1 n = natDigitsAux f2 n := by
  intro f1
  induction f1 with
  | zero =>
    intro f2 n h1 _
    have : n = 0 := by omega
    subst this
    cases f2 with
    | zero => rfl
    | succ f2 => simp [natDigitsAux]
  | succ f1 ih =>
    intro f2 n h1 h2
    cases f2 with
    | zero =>
      have : n = 0 := by omega
      subst this
      simp [natDigitsAux]
    | succ f2 =>
      show (if n < 10 then [n] else natDigitsAux f1 (n / 10) ++ [n % 10])
        = (if n < 10 then [n] else natDigitsAux f2 (n / 10) ++ [n % 10])
      by_cases hn : n < 10
      · simp [hn]
      · rw [if_neg hn, if_neg hn]
        have hd : n / 10 < n := Nat.div_lt_self (by omega) (by omega)
        rw [ih f2 (n / 10) (by omega) (by omega)]

/-- Python `str(n)` for a nonnegative integer. -/
def natToStr (n : Nat) : String :=
  String.mk ((natDigits n).map (fun d => Char.ofNat (48 + d)))

/-- Value of a decimal digit string (models Python `int(s)` on digit strings). -/
def strToNat (s : String) : Nat :=
  s.data.foldl (fun a c => 10 * a + (c.toNat - 48)) 0

/-- Python `s.zfill(w)` for an unsigned decimal string: left-pad with `'0'`
to width `w`. -/
def zfill (w : Nat) (s : String) : String :=
  if s.length ≥ w then s else String.mk (List.replicate (w - s.length) '0' ++ s.data)

theorem natDigits_def (n : Nat) :
    natDigits n = if n < 10 then [n] else natDigits (n / 10) ++ [n % 10] := by
  unfold natDigits
  by_cases hn : n < 10
  · rw [if_pos hn]
    cases n with
    | zero => rfl
    | succ m => simp [natDigitsAux, hn]
  · rw [if_neg hn]
    cases n with
    | zero => omega
    | succ m =>
      show (if m + 1 < 10 then [m + 1] else natDigitsAux m ((m + 1) / 10) ++ [(m + 1) % 10]) = _
      rw [if_neg hn]
      have hd : (m + 1) / 10 < m + 1 := Nat.div_lt_self (by omega) (by omega)
      rw [natDigitsAux_congr m ((m + 1) / 10) ((m + 1) / 10) (by omega) (le_refl _)]

theorem natDigits_ne_nil (n : Nat) : natDigits n ≠ [] := by
  rw [natDigits_def]
  split
  · simp
  · simp

theorem natDigits_lt10 (n : Nat) : ∀ d ∈ natDigits n, d < 10 := by
  induction n using Nat.strong_induction_on with
  | _ n ih =>
    rw [natDigits_def]
    split
    · intro d hd; simp at hd; omega
    · intro d hd
      rcases List.mem_append.mp hd with h | h
      · exact ih (n / 10) (Nat.div_lt_self (by omega) (by omega)) d h
      · simp at h; omega

theorem natDigits_foldl (n : Nat) :
    (natDigits n).foldl (fun a d => 10 * a + d) 0 = n := by
  induction n using Nat.strong_induction_on with
  | _ n ih =>
    rw [natDigits_def]
    split
    · simp
    · rw [List.foldl_append]
      rw [ih (n / 10) (Nat.div_lt_self (by omega) (by omega))]
      simp
      omega

theorem length_natDigits_le : ∀ n : Nat, ∀ m ≤ n,
    (natDigits m).length ≤ (natDigits n).length := by
  intro n
  induction n using Nat.strong_induction_on with
  | _ n ih =>
    intro m h
    rw [natDigits_def m, natDigits_def n]
    by_cases hm : m < 10
    · by_cases hn : n < 10
      · simp [hm, hn]
      · simp only [if_pos hm, if_neg hn, List.length_append, List.length_cons,
          List.length_nil]
        omega
    · have hn : ¬ n < 10 := by omega
      simp only [if_neg hm, if_neg hn, List.length_append, List.length_cons,
        List.length_nil]
      have := ih (n / 10) (Nat.div_lt_self (by omega) (by omega))
        (m / 10) (Nat.div_le_div_right h)
      omega

theorem foldl_digit_chars (l : List Nat) (hl : ∀ d ∈ l, d < 10) : ∀ a : Nat,
    (l.map (fun d => Char.ofNat (48 + d))).foldl (fun a c => 10 * a + (c.toNat - 48)) a
      = l.foldl (fun a d => 10 * a + d) a := by
  induction l with
  | nil => intro a; rfl
  | cons x t iht =>
    intro a
    have hx : x < 10 := hl x (by simp)
    have hchar : (Char.ofNat (48 + x)).toNat = 48 + x := by
      interval_cases x <;> decide
    simp only [List.map_cons, List.foldl_cons, hchar]
    rw [show 48 + x - 48 = x by omega]
    exact iht (fun d hdm => hl d (by simp [hdm])) _

theorem strToNat_natToStr (n : Nat) : strToNat (natToStr n) = n := by
  unfold strToNat natToStr
  rw [show (String.mk ((natDigits n).map (fun d => Char.ofNat (48 + d)))).data
        = (natDigits n).map (fun d => Char.ofNat (48 + d)) from rfl]
  rw [foldl_digit_chars _ (natDigits_lt10 n)]
  exact natDigits_foldl n

theorem strToNat_zfill (w : Nat) (s : String) :
    strToNat (zfill w s) = strToNat s := by
  unfold zfill
  split
  · rfl
  · show (List.replicate (w - s.length) '0' ++ s.data).foldl _ 0 = _
    rw [List.foldl_append]
    have : ∀ k, (List.replicate k '0').foldl (fun a c => 10 * a + (c.toNat - 48)) 0 = 0 := by
      intro k
      induction k with
      | zero => rfl
      | succ k ihk => simpa [List.replicate_succ] using ihk
    rw [this]
    rfl

theorem zfill_natToStr_inj {w i j : Nat}
    (h : zfill w (natToStr i) = zfill w (natToStr j)) : i = j := by
  have := congrArg strToNat h
  rwa [strToNat_zfill, strToNat_zfill, strToNat_natToStr, strToNat_natToStr] at this

theorem length_natToStr_mono {m n : Nat} (h : m ≤ n) :
    (natToStr m).length ≤ (natToStr n).length := by
  unfold natToStr
  show ((natDigits m).map _).length ≤ ((natDigits n).map _).length
  simpa using length_natDigits_le n m h

theorem zfill_length_of_le {w : Nat} {s : String} (h : s.length ≤ w) :
    (zfill w s).length = w := by
  unfold zfill
  rcases Nat.lt_or_ge s.length w with hlt | hge
  · rw [if_neg (by omega)]
    show (List.replicate (w - s.length) '0' ++ s.data).length = w
    have h' : s.data.length ≤ w := h
    have hb : s.length = s.data.length := rfl
    rw [List.length_append, List.length_replicate]
    omega
  · rw [if_pos hge]
    omega

/-- Python `str.strip()` whitespace, ASCII part. -/
def isPyWhitespace (c : Char) : Bool :=
  c = ' ' ∨ c = '\t' ∨ c = '\n' ∨ c = '\r' ∨ c = '\x0b' ∨ c = '\x0c'

/-- Python `s.strip()`: drop whitespace from both ends. -/
def pyStrip (s : String) : String :=
  String.mk (((s.data.dropWhile isPyWhitespace).reverse.dropWhile
    isPyWhitespace).reverse)

/-! ## Datetimes

Python `datetime.datetime` values, as used by all three scripts.  The
constructor `datetime(y, mo, d, hh, mm, ss)` validates its arguments and
raises `ValueError` on an invalid date; `mkDatetime` models it, returning
`none` for the raising case. -/

structure DT where
  y : Nat
  mo : Nat
  d : Nat
  h : Nat
  mi : Nat
  s : Nat
deriving DecidableEq, Repr

/-- Gregorian leap year, as implemented by Python's `calendar`/`datetime`. -/
def isLeap (y : Nat) : Bool := y % 4 = 0 && (y % 100 ≠ 0 || y % 400 = 0)

def daysInMonth (y mo : Nat) : Nat :=
  if mo = 2 then (if isLeap y then 29 else 28)
  else if mo = 4 ∨ mo = 6 ∨ mo = 9 ∨ mo = 11 then 30
  else 31

/-- `datetime(y, mo, d, h, mi, s)`: `some` on valid arguments, `none` models
the `ValueError` raised on invalid ones. -/
def mkDatetime (y mo d h mi s : Nat) : Option DT :=
  if 1 ≤ y ∧ y ≤ 9999 ∧ 1 ≤ mo ∧ mo ≤ 12 ∧ 1 ≤ d ∧ d ≤ daysInMonth y mo
      ∧ h ≤ 23 ∧ mi ≤ 59 ∧ s ≤ 59 then
    some ⟨y, mo, d, h, mi, s⟩
  else none

/-- One step of lexicographic comparison: strictly smaller wins, strictly
larger loses, ties defer to `rest`. -/
def lexStep (x y : Nat) (rest : Bool) : Bool :=
  if x < y then true else if y < x then false else rest

theorem lexStep_iff (x y : Nat) (rest : Bool) :
    lexStep x y rest = true ↔ (x < y ∨ (x = y ∧ rest = true)) := by
  unfold lexStep
  rcases Nat.lt_trichotomy x y with h | h | h
  · rw [if_pos h]; simp [h]
  · subst h
    rw [if_neg (lt_irrefl x), if_neg (lt_irrefl x)]
    simp
  · rw [if_neg (by omega), if_pos h]
    simp [show ¬ x < y by omega, show x ≠ y by omega]

/-- Comparison of `datetime` values (lexicographic by component), i.e. the
order used by Python when sorting datetimes. -/
def dtleB (a b : DT) : Bool :=
  lexStep a.y b.y (lexStep a.mo b.mo (lexStep a.d b.d
    (lexStep a.h b.h (lexStep a.mi b.mi (decide (a.s ≤ b.s))))))

theorem dtleB_iff (a b : DT) : dtleB a b = true ↔
    (a.y < b.y ∨ (a.y = b.y ∧ (a.mo < b.mo ∨ (a.mo = b.mo ∧
      (a.d < b.d ∨ (a.d = b.d ∧ (a.h < b.h ∨ (a.h = b.h ∧
        (a.mi < b.mi ∨ (a.mi = b.mi ∧ a.s ≤ b.s)))))))))) := by
  unfold dtleB
  simp only [lexStep_iff, decide_eq_true_eq]

theorem dtleB_trans (a b c : DT) (hab : dtleB a b = true) (hbc : dtleB b c = true) :
    dtleB a c = true := by
  rw [dtleB_iff] at *
  omega

theorem dtleB_total (a b : DT) : (dtleB a b || dtleB b a) = true := by
  rw [Bool.or_eq_true, dtleB_iff, dtleB_iff]
  omega

/-- Zero-padded fixed-width decimal, as produced by `strftime` field
specifiers such as `%m`, `%H`. -/
def pad2 (n : Nat) : String := zfill 2 (natToStr n)

def pad4 (n : Nat) : String := zfill 4 (natToStr n)

/-- `dt.strftime("%Y-%m-%d %H:%M:%S")` (used by `build_excel_from_images`). -/
def fmtExcelDate (dt : DT) : String :=
  pad4 dt.y ++ "-" ++ pad2 dt.mo ++ "-" ++ pad2 dt.d ++ " "
    ++ pad2 dt.h ++ ":" ++ pad2 dt.mi ++ ":" ++ pad2 dt.s

/-- `dt.strftime("%d.%m.%Y")` (the display date of `build_site`). -/
def fmtDisplayDate (dt : DT) : String :=
  pad2 dt.d ++ "." ++ pad2 dt.mo ++ "." ++ pad4 dt.y

/-- `dt.strftime("%Y-%m-%d_%H%M%S")` (the canonical base name of
`rename_and_convert_to_jpeg`). -/
def fmtBaseName (dt : DT) : String :=
  pad4 dt.y ++ "-" ++ pad2 dt.mo ++ "-" ++ pad2 dt.d ++ "_"
    ++ pad2 dt.h ++ pad2 dt.mi ++ pad2 dt.s

/-! ## Regex scanners

The two correct date regexes of the repository, embedded directly:

* `DATE_RE_FILENAME = (\d{4})-(\d{2})-(\d{2})[_\-](\d{2})(\d{2})(\d{2})`
  (`build_excel_from_images.py`),
* `DATE_RE_EXIF = (\d{4}):(\d{2}):(\d{2})[ T](\d{2}):(\d{2}):(\d{2})`
  (`build_excel_from_images.py` and `rename_and_convert_to_jpeg.py`).

`\d` is modelled as an ASCII digit.  `re.search` tries positions left to
right; at a given position these patterns are deterministic, so the scanners
below implement exactly the leftmost-match semantics. -/

/-- Read exactly `n` ASCII digits, returning their value and the rest. -/
def readNDigits : Nat → List Char → Nat → Option (Nat × List Char)
  | 0, cs, acc => some (acc, cs)
  | _ + 1, [], _ => none
  | n + 1, c :: cs, acc =>
      if c.isDigit then readNDigits n cs (acc * 10 + (c.toNat - 48)) else none

def expectChar (c : Char) : List Char → Option (List Char)
  | [] => none
  | x :: r => if x = c then some r else none

def expectOneOf (set : List Char) : List Char → Option (List Char)
  | [] => none
  | x :: r => if x ∈ set then some r else none

/-- Match `DATE_RE_FILENAME` anchored at the start of `cs`. -/
def matchFilenameDateAt (cs : List Char) : Option (Nat × Nat × Nat × Nat × Nat × Nat) := do
  let (y, r) ← readNDigits 4 cs 0
  let r ← expectChar '-' r
  let (mo, r) ← readNDigits 2 r 0
  let r ← expectChar '-' r
  let (d, r) ← readNDigits 2 r 0
  let r ← expectOneOf ['_', '-'] r
  let (hh, r) ← readNDigits 2 r 0
  let (mi, r) ← readNDigits 2 r 0
  let (ss, _) ← readNDigits 2 r 0
  pure (y, mo, d, hh, mi, ss)

/-- Match `DATE_RE_EXIF` anchored at the start of `cs`. -/
def matchExifDateAt (cs : List Char) : Option (Nat × Nat × Nat × Nat × Nat × Nat) := do
  let (y, r) ← readNDigits 4 cs 0
  let r ← expectChar ':' r
  let (mo, r) ← readNDigits 2 r 0
  let r ← expectChar ':' r
  let (d, r) ← readNDigits 2 r 0
  let r ← expectOneOf [' ', 'T'] r
  let (hh, r) ← readNDigits 2 r 0
  let r ← expectChar ':' r
  let (mi, r) ← readNDigits 2 r 0
  let r ← expectChar ':' r
  let (ss, _) ← readNDigits 2 r 0
  pure (y, mo, d, hh, mi, ss)

/-- `re.search`: try the anchored matcher at each position, left to right. -/
def reSearch (matchAt : List Char → Option (Nat × Nat × Nat × Nat × Nat × Nat)) :
    List Char → Option (Nat × Nat × Nat × Nat × Nat × Nat)
  | [] => none
  | c :: t =>
      match matchAt (c :: t) with
      | some r => some r
      | none => reSearch matchAt t

/-! ## Shared EXIF extraction (`build_excel_from_images.py` /
`rename_and_convert_to_jpeg.py`)

Both scripts define the identical `extract_exif_datetime`: walk the tags
`DateTimeOriginal`, `DateTimeDigitized`, `DateTime` in order; skip absent or
empty values; on the first value matched by `DATE_RE_EXIF`, build
`datetime(...)`.  The surrounding `try/except` turns a `ValueError` from an
invalid date into an overall `None` (it does not continue with later tags). -/

def goExifTags : List (Option String) → Option DT
  | [] => none
  | none :: r => goExifTags r
  | some raw :: r =>
      if raw = "" then goExifTags r
      else
        match reSearch matchExifDateAt raw.data with
        | none => goExifTags r
        | some (y, mo, d, hh, mi, ss) => mkDatetime y mo d hh mi ss

/-- `extract_exif_datetime`, with the three raw tag values (already decoded
to strings; `none` = tag absent) as input. -/
def extract_exif_datetime (dto dtd dtv : Option String) : Option DT :=
  goExifTags [dto, dtd, dtv]

/-! ## `build_excel_from_images.py` -/

/-- `PurePath.stem`/`PurePath.suffix` helper: index of the last `'.'`. -/
def lastDotIdx (cs : List Char) : Option Nat :=
  ((List.range cs.length).filter (fun i => cs.get? i = some '.')).getLast?

/-- `pathlib.PurePath(name).stem`: the name minus its last suffix; a suffix
exists when the last dot is neither the first nor the last character. -/
def pathStem (name : String) : String :=
  let cs := name.data
  match lastDotIdx cs with
  | some i => if 0 < i ∧ i < cs.length - 1 then String.mk (cs.take i) else name
  | none => name

/-- `pathlib.PurePath(name).suffix`. -/
def pathSuffix (name : String) : String :=
  let cs := name.data
  match lastDotIdx cs with
  | some i => if 0 < i ∧ i < cs.length - 1 then String.mk (cs.drop i) else ""
  | none => ""

theorem dropWhile_length_le {α : Type} (p : α → Bool) (l : List α) :
    (l.dropWhile p).length ≤ l.length := by
  induction l with
  | nil => simp
  | cons a t ih =>
    rw [List.dropWhile_cons]
    split
    · simp only [List.length_cons]; omega
    · simp

/-- `re.sub(r"[_\-]+", " ", s)`: each maximal run of `'_'`/`'-'` becomes a
single space. -/
def subSeps : List Char → List Char
  | [] => []
  | c :: r =>
      if c = '_' ∨ c = '-' then
        ' ' :: subSeps (r.dropWhile (fun x => x = '_' ∨ x = '-'))
      else c :: subSeps r
  termination_by cs => cs.length
  decreasing_by
    · have := dropWhile_length_le (fun x => decide (x = '_' ∨ x = '-')) r
      simp only [List.length_cons]
      omega
    · simp [List.length_cons]

/-- `nice_desc_from_name`: stem, separators to spaces, strip, capitalize
the first character (string methods modelled on ASCII). -/
def nice_desc_from_name (name : String) : String :=
  let base := pathStem name
  let base := String.mk (subSeps base.data)
  let base := pyStrip base
  match base.data with
  | [] => ""
  | c :: r => String.mk (c.toUpper :: r)

/-- One scanned image as `build_excel_from_images.main` sees it: its file
name plus the environment data the script queries.  `exif*` are the raw EXIF
tag strings (`none` = absent); `mdls` is the result of the
`mdls_creation_datetime` subprocess query (always `none` off macOS);
`birthtime` is `st_birthtime` when present and nonzero (`fs_birth_or_mtime`
treats a zero/absent birthtime alike); `mtime` is `st_mtime`. -/
structure ScanFile where
  name : String
  exifDTO : Option String
  exifDTD : Option String
  exifDT : Option String
  mdls : Option DT
  birthtime : Option DT
  mtime : DT
deriving DecidableEq, Repr

/-- `datetime_from_filename`: search `DATE_RE_FILENAME` in `p.stem`; on a
match, `datetime(...)` may raise (no surrounding `try`), modelled by
`.error`. -/
def datetime_from_filename (stem : String) : Except Unit (Option DT) :=
  match reSearch matchFilenameDateAt stem.data with
  | none => .ok none
  | some (y, mo, d, hh, mi, ss) =>
      match mkDatetime y mo d hh mi ss with
      | some dt => .ok (some dt)
      | none => .error ()

/-- `fs_birth_or_mtime`: birthtime when truthy, else mtime. -/
def fs_birth_or_mtime (f : ScanFile) : DT :=
  match f.birthtime with
  | some bt => bt
  | none => f.mtime

/-- Line 126 of `build_excel_from_images.py`:
`datetime_from_filename(p) or extract_exif_datetime(p) or
mdls_creation_datetime(p) or fs_birth_or_mtime(p)` — Python's short-circuit
`or` over always-truthy datetimes, i.e. the first non-`None` source wins. -/
def resolve_timestamp (f : ScanFile) : Except Unit DT :=
  match datetime_from_filename (pathStem f.name) with
  | .error e => .error e
  | .ok (some d) => .ok d
  | .ok none =>
      match extract_exif_datetime f.exifDTO f.exifDTD f.exifDT with
      | some d => .ok d
      | none =>
          match f.mdls with
          | some d => .ok d
          | none => .ok (fs_birth_or_mtime f)

/-- Lines 124–127: scan loop, collecting `(p.name, dt)`; an uncaught
`ValueError` from `datetime_from_filename` aborts the run. -/
def scanResolve : List ScanFile → Except Unit (List (String × DT))
  | [] => .ok []
  | f :: r => do
      let dt ← resolve_timestamp f
      let rest ← scanResolve r
      pure ((f.name, dt) :: rest)

/-- Line 133: `items.sort(key=lambda x: x[1])` — stable sort by datetime. -/
def sortItems (items : List (String × DT)) : List (String × DT) :=
  items.mergeSort (fun a b => dtleB a.2 b.2)

/-- Line 134: `pad = max(3, len(str(len(items))))`. -/
def excelPad (n : Nat) : Nat := max 3 (natToStr n).length

/-- Line 138: `id_str = str(i).zfill(pad)` for the `i`-th row of `n` total. -/
def excelId (n k : Nat) : String := zfill (excelPad n) (natToStr k)

/-- Line 142: `link = f"{base_url}/e/{id_str}.html"`. -/
def excelLink (u : String) (n k : Nat) : String :=
  u ++ "/e/" ++ excelId n k ++ ".html"

structure XRow where
  id : String
  bildname : String
  datum : String
  beschreibung : String
  link : String
deriving DecidableEq, Repr

/-- Lines 133–143 of `build_excel_from_images.main`: sort by timestamp and
assign rows with sequential zero-padded IDs starting at 001. -/
def buildRows (descFromName : Bool) (baseUrl : Option String)
    (items : List (String × DT)) : List XRow :=
  let sorted := sortItems items
  let n := items.length
  sorted.enum.map (fun p =>
    let idStr := excelId n (p.1 + 1)
    { id := idStr
      bildname := p.2.1
      datum := fmtExcelDate p.2.2
      beschreibung := if descFromName then nice_desc_from_name p.2.1 else ""
      link := match baseUrl with
              | some u => excelLink u n (p.1 + 1)
              | none => "" })

/-! ## Helper lemmas about `enum`/`zip` maps -/

theorem enum_map_fst_fun {α β : Type} (l : List α) (f : Nat → β) :
    l.enum.map (fun p => f p.1) = (List.range l.length).map f := by
  rw [List.enum_eq_zip_range]
  rw [show (fun p : Nat × α => f p.1) = f ∘ Prod.fst from rfl]
  rw [← List.map_map]
  rw [List.map_fst_zip _ _ (by simp)]

theorem enum_map_snd_fun {α β : Type} (l : List α) (f : α → β) :
    l.enum.map (fun p => f p.2) = l.map f := by
  rw [List.enum_eq_zip_range]
  rw [show (fun p : Nat × α => f p.2) = f ∘ Prod.snd from rfl]
  rw [← List.map_map]
  rw [List.map_snd_zip _ _ (by simp)]

/-- C1.  In `build_excel_from_images`, the timestamp of a scanned image is
taken from the highest-priority available source, in the order: filename
date pattern, then EXIF date tags, then OS metadata (mdls / st_birthtime),
then file mtime; a lower-priority source is used only when every
higher-priority source yields no date. -/
theorem excel_timestamp_priority (f : ScanFile) (d : DT)
    (h : resolve_timestamp f = .ok d) :
    (∀ d1, datetime_from_filename (pathStem f.name) = .ok (some d1) → d = d1) ∧
    (datetime_from_filename (pathStem f.name) = .ok none →
      (∀ d2, extract_exif_datetime f.exifDTO f.exifDTD f.exifDT = some d2 → d = d2) ∧
      (extract_exif_datetime f.exifDTO f.exifDTD f.exifDT = none →
        (∀ d3, f.mdls = some d3 → d = d3) ∧
        (f.mdls = none → d = fs_birth_or_mtime f))) := by
  unfold resolve_timestamp at h
  cases hf : datetime_from_filename (pathStem f.name) with
  | error e => rw [hf] at h; exact absurd h (by simp)
  | ok od =>
    rw [hf] at h
    cases od with
    | some d1 =>
      simp only [Except.ok.injEq] at h
      subst h
      refine ⟨?_, ?_⟩
      · intro d1' h1
        simp only [Except.ok.injEq, Option.some.injEq] at h1
        exact h1
      · intro hn
        simp at hn
    | none =>
      refine ⟨?_, ?_⟩
      · intro d1' h1
        simp at h1
      · intro _
        cases he : extract_exif_datetime f.exifDTO f.exifDTD f.exifDT with
        | some d2 =>
          rw [he] at h
          simp only [Except.ok.injEq] at h
          subst h
          refine ⟨?_, ?_⟩
          · intro d2' h2
            simp only [Option.some.injEq] at h2
            exact h2
          · intro hn
            simp at hn
        | none =>
          rw [he] at h
          refine ⟨?_, ?_⟩
          · intro d2' h2
            simp at h2
          · intro _
            cases hm : f.mdls with
            | some d3 =>
              rw [hm] at h
              simp only [Except.ok.injEq] at h
              subst h
              refine ⟨?_, ?_⟩
              · intro d3' h3
                simp only [Option.some.injEq] at h3
                exact h3
              · intro hn
                simp at hn
            | none =>
              rw [hm] at h
              simp only [Except.ok.injEq] at h
              subst h
              refine ⟨?_, ?_⟩
              · intro d3' h3
                simp at h3
              · intro _
                rfl

/-- Concrete input for C1: no filename date, no EXIF, no mdls, no birthtime,
so the mtime is used. -/
def c1file : ScanFile :=
  { name := "photo.jpg", exifDTO := none, exifDTD := none, exifDT := none,
    mdls := none, birthtime := none, mtime := ⟨2021, 3, 4, 5, 6, 7⟩ }

theorem excel_timestamp_priority_witness :
    resolve_timestamp c1file = Except.ok c1file.mtime ∧
      c1file.mtime = fs_birth_or_mtime c1file :=
  ⟨rfl, (((excel_timestamp_priority c1file c1file.mtime rfl).2 rfl).2 rfl).2 rfl⟩

theorem buildRows_map_id (descFromName : Bool) (baseUrl : Option String)
    (items : List (String × DT)) :
    (buildRows descFromName baseUrl items).map XRow.id
      = (List.range items.length).map (fun i => excelId items.length (i + 1)) := by
  unfold buildRows
  rw [List.map_map]
  have hcomp : (XRow.id ∘ fun p : Nat × (String × DT) =>
      ({ id := excelId items.length (p.1 + 1), bildname := p.2.1,
         datum := fmtExcelDate p.2.2,
         beschreibung := if descFromName then nice_desc_from_name p.2.1 else "",
         link := match baseUrl with
                 | some u => excelLink u items.length (p.1 + 1)
                 | none => "" } : XRow))
      = fun p : Nat × (String × DT) => excelId items.length (p.1 + 1) := rfl
  rw [hcomp]
  have h1 := enum_map_fst_fun (sortItems items)
    (fun i => excelId items.length (i + 1))
  simp only at h1
  rw [h1]
  rw [show (sortItems items).length = items.length from
    (List.mergeSort_perm items (fun a b => dtleB a.2 b.2)).length_eq]

theorem buildRows_map_bildname (descFromName : Bool) (baseUrl : Option String)
    (items : List (String × DT)) :
    (buildRows descFromName baseUrl items).map XRow.bildname
      = (sortItems items).map Prod.fst := by
  unfold buildRows
  rw [List.map_map]
  have hcomp : (XRow.bildname ∘ fun p : Nat × (String × DT) =>
      ({ id := excelId items.length (p.1 + 1), bildname := p.2.1,
         datum := fmtExcelDate p.2.2,
         beschreibung := if descFromName then nice_desc_from_name p.2.1 else "",
         link := match baseUrl with
                 | some u => excelLink u items.length (p.1 + 1)
                 | none => "" } : XRow))
      = fun p : Nat × (String × DT) => p.2.1 := rfl
  rw [hcomp]
  exact enum_map_snd_fun (sortItems items) Prod.fst

theorem strToNat_excelId (n k : Nat) : strToNat (excelId n k) = k := by
  unfold excelId
  rw [strToNat_zfill, strToNat_natToStr]

/-- C2.  For a non-empty scan of `n` images, `build_excel_from_images`
assigns ID strings that are pairwise distinct, all of width
`max(3, digits of n)`, represent exactly the integers `1..n`, and are given
out along the timestamp-sorted order of the images, so IDs are monotone in
the resolved timestamp (the sort key). -/
theorem excel_ids_unique_padded_monotone (descFromName : Bool)
    (baseUrl : Option String) (items : List (String × DT))
    (_hne : items ≠ []) :
    (buildRows descFromName baseUrl items).length = items.length ∧
    ((buildRows descFromName baseUrl items).map XRow.id).Nodup ∧
    (∀ s ∈ (buildRows descFromName baseUrl items).map XRow.id,
        s.length = excelPad items.length) ∧
    (buildRows descFromName baseUrl items).map (fun r => strToNat r.id)
        = List.range' 1 items.length ∧
    (sortItems items).Perm items ∧
    (sortItems items).Pairwise (fun a b => dtleB a.2 b.2 = true) ∧
    (buildRows descFromName baseUrl items).map XRow.bildname
        = (sortItems items).map Prod.fst := by
  have hperm : (sortItems items).Perm items :=
    List.mergeSort_perm items (fun a b => dtleB a.2 b.2)
  have hnat : (buildRows descFromName baseUrl items).map (fun r => strToNat r.id)
      = List.range' 1 items.length := by
    rw [show (fun r : XRow => strToNat r.id) = strToNat ∘ XRow.id from rfl]
    rw [← List.map_map, buildRows_map_id, List.map_map]
    rw [List.range'_eq_map_range]
    apply List.map_congr_left
    intro i _
    simp only [Function.comp_apply, strToNat_excelId]
    omega
  refine ⟨?_, ?_, ?_, hnat, hperm, ?_, buildRows_map_bildname _ _ _⟩
  · have := congrArg List.length (buildRows_map_id descFromName baseUrl items)
    simpa using this
  · apply List.Nodup.of_map strToNat
    rw [List.map_map]
    rw [show strToNat ∘ XRow.id = fun r : XRow => strToNat r.id from rfl]
    rw [hnat]
    exact List.nodup_range' 1 items.length
  · intro s hs
    rw [buildRows_map_id] at hs
    obtain ⟨i, hi, rfl⟩ := List.mem_map.mp hs
    have hin : i + 1 ≤ items.length := by
      have := List.mem_range.mp hi
      omega
    unfold excelId
    apply zfill_length_of_le
    calc (natToStr (i + 1)).length
        ≤ (natToStr items.length).length := length_natToStr_mono hin
      _ ≤ excelPad items.length := le_max_right _ _
  · exact @List.sorted_mergeSort (String × DT) (fun a b => dtleB a.2 b.2)
      (fun a b c hab hbc => dtleB_trans _ _ _ hab hbc)
      (fun a b => dtleB_total a.2 b.2) items

/-- Concrete input for C2: two images, out of timestamp order. -/
def c2items : List (String × DT) :=
  [("b.jpg", ⟨2021, 1, 1, 0, 0, 0⟩), ("a.jpg", ⟨2020, 1, 1, 0, 0, 0⟩)]

theorem excel_ids_unique_padded_monotone_witness :
    c2items ≠ [] ∧
      ((buildRows false none c2items).map XRow.id).Nodup :=
  ⟨by simp [c2items],
   (excel_ids_unique_padded_monotone false none c2items (by simp [c2items])).2.1⟩

/-! ## `rename_and_convert_to_jpeg.py`

The script first plans all renames (`plans` list, lines 100–111) and only
then, under `--apply`, converts and removes sources (lines 124–135).  During
planning the disk is unchanged, so every `unique_target_name` call checks
existence against the initial directory contents. -/

/-- One image file as `rename_and_convert_to_jpeg.main` sees it. -/
structure RnFile where
  name : String
  exifDTO : Option String
  exifDTD : Option String
  exifDT : Option String
  mtime : DT
deriving DecidableEq, Repr

/-- Lines 102–107: EXIF date if available, else mtime (plus the
`used_exif` flag). -/
def rn_resolve (f : RnFile) : DT × Bool :=
  match extract_exif_datetime f.exifDTO f.exifDTD f.exifDT with
  | some d => (d, true)
  | none => (f.mtime, false)

/-- The candidate-probing loop of `unique_target_name`: try
`{stem}-{i}{ext}` for `i = 1, 2, ...` until a name not on disk is found.
The Python loop is unbounded; `fuel = |disk| + 1` candidates suffice since
the candidate names are pairwise distinct. -/
def probeTarget (existing : List String) (stem ext : String) : Nat → Nat → String
  | 0, i => stem ++ "-" ++ natToStr i ++ ext
  | fuel + 1, i =>
      let cand := stem ++ "-" ++ natToStr i ++ ext
      if cand ∈ existing then probeTarget existing stem ext fuel (i + 1) else cand

/-- `unique_target_name` (lines 74–83), with the directory contents at call
time as explicit state. -/
def unique_target_name (existing : List String) (target : String) : String :=
  if target ∈ existing then
    probeTarget existing (pathStem target) (pathSuffix target) (existing.length + 1) 1
  else target

/-- Lines 100–111: build the full plan list against the initial directory
contents `fs0` (nothing is written during planning). -/
def planRenames (fs0 : List String) (files : List RnFile) : List (String × String) :=
  files.map (fun f =>
    (f.name, unique_target_name fs0 (fmtBaseName (rn_resolve f).1 ++ ".jpeg")))

/-- Lines 124–135 under `--apply`: for each plan, `rgb.save(dst)` (creating
or overwriting `dst`), then `os.remove(src)` when `src != dst`.  The state
is the set of file names on disk. -/
def applyPlans (fs : List String) : List (String × String) → List String
  | [] => fs
  | (src, dst) :: rest =>
      let fs1 := if dst ∈ fs then fs else fs ++ [dst]
      let fs2 := if src ≠ dst then fs1.erase src else fs1
      applyPlans fs2 rest

/-- Concrete input for C7: two images with no EXIF dates and the same
mtime, in a directory containing only these two files. -/
def rnDir : List String := ["a.png", "b.png"]

def rnA : RnFile :=
  { name := "a.png", exifDTO := none, exifDTD := none, exifDT := none,
    mtime := ⟨2020, 1, 1, 0, 0, 0⟩ }

def rnB : RnFile :=
  { name := "b.png", exifDTO := none, exifDTD := none, exifDT := none,
    mtime := ⟨2020, 1, 1, 0, 0, 0⟩ }

/-- C7 fails on the code: both images are planned onto the same destination
`2020-01-01_000000.jpeg` (existence is only checked against the initial
disk, never against other plans of the same run), so applying the plans
overwrites the first converted output with the second and only one file
remains for two sources. -/
theorem rename_planned_destinations_collide :
    (planRenames rnDir [rnA, rnB]).map Prod.snd
        = ["2020-01-01_000000.jpeg", "2020-01-01_000000.jpeg"] ∧
    ¬ ((planRenames rnDir [rnA, rnB]).map Prod.snd).Nodup ∧
    applyPlans rnDir (planRenames rnDir [rnA, rnB])
        = ["2020-01-01_000000.jpeg"] := by
  refine ⟨by decide, by decide, by decide⟩

/-! ## `build_site.py`: `md_to_html`

The source (lines 137–141) reads

  s = s.replace("&","&amp;").replace("<","&lt;").replace(">","&gt;")
  s = re.sub(r"\\*\\*(.+?)\\*\\*", r"<strong>\\1</strong>", s)
  s = re.sub(r"\\*(.+?)\\*", r"<em>\\1</em>", s)

In these raw strings `\\` is a literal backslash, so the patterns are
`\\*\\*(.+?)\\*\\*` and `\\*(.+?)\\*` — *zero or more backslashes* around a
lazy group, not escaped asterisks.  Both patterns match at any position
whose character is not a newline (leading `\\*` greedily takes a backslash
run, the lazy group takes one character, trailing `\\*` takes the following
backslash run), and at a backslash run followed by newline/end the run
itself matches.  The replacement templates `r"<strong>\\1</strong>"` /
`r"<em>\\1</em>"` contain the escaped backslash `\\` followed by the literal
digit `1`, i.e. they insert the two characters `\1`, not group 1. -/

/-- Length of the leading backslash run. -/
def bsRun : List Char → Nat
  | [] => 0
  | c :: r => if c = '\\' then bsRun r + 1 else 0

/-- Length of the match (if any) of `\\*\\*(.+?)\\*\\*` (equally
`\\*(.+?)\\*`) anchored at this position, following CPython's backtracking:
greedy leading backslash run, lazy one-character group (`.` excludes the
newline), greedy trailing backslash run; if no character can follow the
leading run, the run (if nonempty) backtracks one backslash into the
group. -/
def subMatchLen (cs : List Char) : Option Nat :=
  let k := bsRun cs
  match cs.drop k with
  | c :: rest =>
      if c = '\n' then (if k ≥ 1 then some k else none)
      else some (k + 1 + bsRun rest)
  | [] => if k ≥ 1 then some k else none

theorem bsRun_le_length (cs : List Char) : bsRun cs ≤ cs.length := by
  induction cs with
  | nil => simp [bsRun]
  | cons c r ih =>
    unfold bsRun
    split
    · simp only [List.length_cons]; omega
    · simp

theorem subMatchLen_pos {cs : List Char} {L : Nat} (h : subMatchLen cs = some L) :
    1 ≤ L ∧ L ≤ cs.length := by
  have hk := bsRun_le_length cs
  unfold subMatchLen at h
  simp only at h
  split at h
  · rename_i c rest heq
    have hlen : cs.length = bsRun cs + (c :: rest).length := by
      have h2 := List.length_drop (bsRun cs) cs
      rw [heq] at h2
      omega
    have hr := bsRun_le_length rest
    simp only [List.length_cons] at hlen
    split at h
    · split at h
      · simp only [Option.some.injEq] at h; omega
      · exact absurd h (by simp)
    · simp only [Option.some.injEq] at h; omega
  · rename_i heq
    split at h
    · simp only [Option.some.injEq] at h; omega
    · exact absurd h (by simp)

/-- `re.sub` with a constant replacement (the group reference in the
source's template is the literal text `\1`): scan left to right, replace
each non-overlapping match, copy unmatched characters. -/
def pySub (repl : List Char) : Nat → List Char → List Char
  | _, [] => []
  | 0, cs => cs
  | fuel + 1, cs@(c :: rest) =>
      match subMatchLen cs with
      | some L => repl ++ pySub repl fuel (cs.drop L)
      | none => c :: pySub repl fuel rest

/-- `s.replace(old, new)` for a single-character `old`. -/
def replaceChar (old : Char) (new : List Char) (cs : List Char) : List Char :=
  cs.flatMap (fun c => if c = old then new else [c])

/-- Line 138: HTML entity escaping, in source order. -/
def escapeHtml (cs : List Char) : List Char :=
  replaceChar '>' ['&', 'g', 't', ';']
    (replaceChar '<' ['&', 'l', 't', ';']
      (replaceChar '&' ['&', 'a', 'm', 'p', ';'] cs))

/-- `md_to_html` (lines 137–141), with the two `re.sub` passes as they are
actually written (see the section comment). -/
def md_to_html (s : String) : String :=
  let cs := escapeHtml s.data
  let cs := pySub "<strong>\\1</strong>".data cs.length cs
  let cs := pySub "<em>\\1</em>".data cs.length cs
  String.mk cs

set_option maxRecDepth 8192 in
/-- C9 fails on the code: the doubled backslashes make both `re.sub`
patterns match every single (non-newline) character, and the replacement
inserts a literal `\1`, so even a plain string without any asterisk markers
is destroyed rather than returned unchanged, and `**bold**` is not turned
into `<strong>`.  (The entity escaping of line 138 does run first.) -/
theorem md_to_html_mangles_text :
    md_to_html "x" = String.join (List.replicate 18 "<em>\\1</em>") ∧
    md_to_html "x" ≠ "x" ∧
    md_to_html "**fett**" ≠ "<strong>fett</strong>" ∧
    escapeHtml "a<b&c>d".data = "a&lt;b&amp;c&gt;d".data := by
  refine ⟨by decide, by decide, by decide, by decide⟩

/-! ## `build_site.py`: spreadsheet parsing helpers

Cells are either missing (`pd.isna`) or carry a string form (`str(val)`);
`pdParse` below abstracts the library call
`pd.to_datetime(val, dayfirst=True, errors="coerce")`. -/

inductive Cell where
  | nan : Cell
  | val : String → Cell
deriving DecidableEq, Repr

/-- Python `str(...)` of a cell (`str(float("nan")) = "nan"`). -/
def cellStr : Cell → String
  | .nan => "nan"
  | .val s => s

structure DataFrame where
  cols : List String
  rows : List (List Cell)
deriving DecidableEq, Repr

/-- Python `s.lower()`, modelled on ASCII. -/
def pyLower (s : String) : String := String.mk (s.data.map Char.toLower)

/-- `s.replace(pat, "")`: remove non-overlapping occurrences left to right
(fuel-driven structural recursion; `fuel = |s|` suffices). -/
def removeAllSub (pat : List Char) : Nat → List Char → List Char
  | _, [] => []
  | 0, cs => cs
  | fuel + 1, c :: rest =>
      if pat ≠ [] ∧ pat.isPrefixOf (c :: rest) then
        removeAllSub pat fuel ((c :: rest).drop pat.length)
      else c :: removeAllSub pat fuel rest

def pyRemove (pat : String) (s : String) : String :=
  String.mk (removeAllSub pat.data s.data.length s.data)

/-- `normalize_colname` (lines 109–114): strip, lower, then remove each of
`" "`, `"\t"`, `"/"`, `"\\\\"`, `"_"`, `"-"`.  In the source the fourth
pattern is written `"\\\\"`, the Python string of TWO backslashes, so only
backslash *pairs* are removed. -/
def normalize_colname (name : String) : String :=
  let s := pyLower (pyStrip name)
  let s := pyRemove " " s
  let s := pyRemove "\t" s
  let s := pyRemove "/" s
  let s := pyRemove "\\\\" s
  let s := pyRemove "_" s
  let s := pyRemove "-" s
  s

/-- Lookup in a Python dict built by comprehension: later duplicate keys
overwrite earlier ones, hence the *last* matching binding wins. -/
def dictGet (l : List (String × String)) (k : String) : Option String :=
  ((l.filter (fun p => p.1 == k)).getLast?).map Prod.snd

/-- `{normalize_colname(c): c for c in df.columns}` (lines 118/251). -/
def colsMap (cols : List String) : List (String × String) :=
  cols.map (fun c => (normalize_colname c, c))

/-- `find_date_column` (lines 116–121). -/
def find_date_column (cols : List String) : Option String :=
  match dictGet (colsMap cols) "datumjahr" with
  | some c => some c
  | none => dictGet (colsMap cols) "datum"

/-- `row[col]` of a pandas row, with the row's cells aligned to the column
list. -/
def rowGet (cols : List String) (row : List Cell) (col : String) : Cell :=
  match cols.findIdx? (fun c => c == col) with
  | some i => (row.get? i).getD .nan
  | none => .nan

/-- `safe_date_from_excel` (lines 123–135).  The year-only branch tests
`re.fullmatch(r"\\d{4}", s)` whose pattern is a literal backslash followed
by `d` four times; when it matches (`s` is exactly the five characters
`\dddd`), `datetime(int(s), 1, 1)` raises an uncaught `ValueError` since
`int` cannot parse it — modelled by `.error`.  Otherwise the result is the
library parse (`pdParse`), whose `errors="coerce"`/`try` yield `none` on
failure. -/
def safe_date_from_excel (pdParse : Cell → Option DT) (v : Cell) :
    Except Unit (Option DT) :=
  match v with
  | .nan => .ok none
  | .val s =>
      if (pyStrip (cellStr (.val s))).data = ['\\', 'd', 'd', 'd', 'd'] then .error ()
      else .ok (pdParse (.val s))

/-! ## `build_site.py`: `exif_datetime` (lines 86–107)

`DATE_RE` is compiled from the raw string
`"(\\d{4}):(\\d{2}):(\\d{2})[ T](\\d{2}):(\\d{2}):(\\d{2})"`; since `\\` in a
raw string is a literal backslash, each `\\d{n}` matches one backslash
followed by the *letter* `d` repeated `n` times.  So the pattern only
matches the literal text `\dddd:\dd:\dd \dd:\dd:\dd` (or with `T`); when it
does, the captured groups are those letter strings and `map(int, ...)`
raises `ValueError`, which the surrounding `except` turns into `None`; when
it does not, the tag loop continues and the function ends with `None`. -/

/-- The literal character sequence `DATE_RE` of `build_site.py` matches. -/
def siteDateLit (sep : Char) : List Char :=
  ['\\', 'd', 'd', 'd', 'd', ':', '\\', 'd', 'd', ':', '\\', 'd', 'd', sep,
   '\\', 'd', 'd', ':', '\\', 'd', 'd', ':', '\\', 'd', 'd']

def containsSeq (pat : List Char) : List Char → Bool
  | [] => pat.isPrefixOf []
  | c :: t => pat.isPrefixOf (c :: t) || containsSeq pat t

def siteDateSearch (cs : List Char) : Bool :=
  containsSeq (siteDateLit ' ') cs || containsSeq (siteDateLit 'T') cs

/-- Image data as `build_site` reads it: raw EXIF tag strings, mtime, and an
abstract token for the pixel content. -/
structure ImageFile where
  exifDTO : Option String
  exifDTD : Option String
  exifDT : Option String
  mtime : DT
  content : Nat
deriving DecidableEq, Repr

def goSiteTags : List (Option String) → Option DT
  | [] => none
  | none :: r => goSiteTags r
  | some raw :: r => if siteDateSearch raw.data then none else goSiteTags r

/-- `exif_datetime` of `build_site.py`: tag loop over DateTimeOriginal,
Digitized, DateTime; a `DATE_RE` match leads to the caught `ValueError`
(result `None`), a non-match continues the loop. -/
def exif_datetime (im : ImageFile) : Option DT :=
  goSiteTags [im.exifDTO, im.exifDTD, im.exifDT]

theorem goSiteTags_none : ∀ l, goSiteTags l = none := by
  intro l
  induction l with
  | nil => rfl
  | cons x r ih =>
    cases x with
    | none => simpa [goSiteTags] using ih
    | some raw =>
      unfold goSiteTags
      split
      · rfl
      · exact ih

/-- `build_site.py`'s `exif_datetime` never yields a date. -/
theorem exif_datetime_always_none (im : ImageFile) : exif_datetime im = none :=
  goSiteTags_none _

/-- Lines 274–283 of `build_site.main`: Excel date cell first, then EXIF,
then mtime; the `dateCell` argument is `row[col_date]` when a date column
exists. -/
def resolve_row_date (pdParse : Cell → Option DT) (dateCell : Option Cell)
    (im : ImageFile) : Except Unit DT :=
  match dateCell with
  | none =>
      match exif_datetime im with
      | some d => .ok d
      | none => .ok im.mtime
  | some v =>
      match safe_date_from_excel pdParse v with
      | .error e => .error e
      | .ok (some d) => .ok d
      | .ok none =>
          match exif_datetime im with
          | some d => .ok d
          | none => .ok im.mtime

/-- Concrete image for C6: EXIF DateTimeOriginal carries the standard,
well-formed date string `2020:01:02 03:04:05`; the file mtime is a
different date. -/
def c6img : ImageFile :=
  { exifDTO := some "2020:01:02 03:04:05", exifDTD := none, exifDT := none,
    mtime := ⟨2021, 5, 5, 10, 0, 0⟩, content := 0 }

/-- C6 fails on the code: `build_site.py`'s `DATE_RE` is compiled from
doubled backslashes and can never parse a real EXIF date (conjunct 4:
`exif_datetime` is constantly `None`), so a row with an empty spreadsheet
date cell and a perfectly parseable EXIF date — the sibling scripts' correct
`DATE_RE_EXIF` parses it, conjunct 3 — falls through to the mtime instead of
the EXIF date, contradicting the documented fallback order. -/
theorem site_exif_date_skipped :
    exif_datetime c6img = none ∧
    resolve_row_date (fun _ => none) (some Cell.nan) c6img
        = Except.ok (⟨2021, 5, 5, 10, 0, 0⟩ : DT) ∧
    reSearch matchExifDateAt "2020:01:02 03:04:05".data
        = some (2020, 1, 2, 3, 4, 5) ∧
    (⟨2021, 5, 5, 10, 0, 0⟩ : DT) ≠ (⟨2020, 1, 2, 3, 4, 5⟩ : DT) ∧
    (∀ im : ImageFile, exif_datetime im = none) := by
  refine ⟨rfl, rfl, by decide, by decide, exif_datetime_always_none⟩

/-- The `CSS` constant of `build_site.py` (lines 45–61), verbatim. -/
def CSS : String := "\n:root\x7b--bg:#fafafa;--fg:#222;--muted:#666;--card:#fff;--shadow:rgba(0,0,0,.06);--radius:16px;--maxw:960px\x7d\n*\x7bbox-sizing:border-box\x7d\nhtml,body\x7bmargin:0;padding:0;background:var(--bg);color:var(--fg);font:16px/1.6 system-ui,-apple-system,Segoe UI,Roboto,Ubuntu,\x27Helvetica Neue\x27,Arial\x7d\nimg\x7bmax-width:100%;height:auto;display:block\x7d\na\x7bcolor:#0a58ca;text-decoration:none\x7da:hover\x7btext-decoration:underline\x7d\n.site-header,.site-footer\x7bmax-width:var(--maxw);margin:auto;padding:16px 20px\x7d\n.brand\x7bfont-weight:700;font-size:20px\x7d\nmain\x7bmax-width:var(--maxw);margin:0 auto;padding:10px 20px 40px\x7d\n.grid\x7bdisplay:grid;grid-template-columns:repeat(auto-fill,minmax(240px,1fr));gap:18px\x7d\n.card\x7bbackground:var(--card);border-radius:var(--radius);box-shadow:0 10px 20px var(--shadow);overflow:hidden;transition:transform .15s ease,box-shadow .15s ease\x7d\n.card:hover\x7btransform:translateY(-2px);box-shadow:0 14px 24px var(--shadow)\x7d\n.card .thumb\x7baspect-ratio:4/3;object-fit:cover\x7d.card .body\x7bpadding:12px 14px\x7d.card .meta\x7bfont-size:12px;color:var(--muted);display:flex;gap:10px;flex-wrap:wrap\x7d\n.entry-card\x7bbackground:var(--card);border-radius:var(--radius);box-shadow:0 10px 20px var(--shadow);padding:18px\x7d\n.entry-figure\x7bmargin:0 0 12px 0\x7d.entry-text\x7bwhite-space:pre-wrap;font-size:18px\x7d.entry-meta\x7bcolor:var(--muted);margin:6px 0 14px 0\x7d\n.entry-nav\x7bdisplay:flex;gap:12px;margin-top:16px;flex-wrap:wrap\x7d\n"

/-- Segments of `INDEX_TEMPLATE`, split at its `{css}`/`{cards}` fields. -/
def idxT1 : String := "<!doctype html><html lang=\"de\"><head><meta charset=\"utf-8\"/><meta name=\"viewport\" content=\"width=device-width, initial-scale=1\"/><title>Übersicht</title><style>"
def idxT2 : String := "</style></head><body><header class=\"site-header\"><div class=\"brand\">🎁 QR‑Geschenk</div></header><main><section><h1>Alle Einträge</h1><div class=\"grid\">"
def idxT3 : String := "</div></section></main><footer class=\"site-footer\"><p>Erstellt mit ❤️ fürs Geschenk</p></footer></body></html>"

/-- Segments of `CARD_TEMPLATE`, split at its format fields (href,
thumb_src, num, date, preview). -/
def cardT1 : String := "<a class=\"card\" href=\""
def cardT2 : String := "\"><img class=\"thumb\" src=\""
def cardT3 : String := "\" alt=\"\"><div class=\"body\"><div class=\"meta\"><span>#"
def cardT4 : String := "</span><span>"
def cardT5 : String := "</span></div><div>"
def cardT6 : String := "</div></div></a>"

/-- Segments of `ENTRY_TEMPLATE`, split at its format fields (num, css,
image, date, text_html, prev_link, next_link; the last two are adjacent). -/
def entryT1 : String := "<!doctype html><html lang=\"de\"><head><meta charset=\"utf-8\"/><meta name=\"viewport\" content=\"width=device-width, initial-scale=1\"/><title>Eintrag "
def entryT2 : String := "</title><style>"
def entryT3 : String := "</style></head><body><header class=\"site-header\"><a href=\"../index.html\" class=\"brand\">🎁 QR‑Geschenk</a></header><main><article class=\"entry\"><div class=\"entry-card\"><figure class=\"entry-figure\"><img src=\"../assets/images/"
def entryT4 : String := "\" alt=\"\"></figure><div class=\"entry-meta\">"
def entryT5 : String := "</div><div class=\"entry-text\">"
def entryT6 : String := "</div></div><nav class=\"entry-nav\"><a href=\"../index.html\">← Zurück zur Übersicht</a>"
def entryT7 : String := "</nav></article></main><footer class=\"site-footer\"><p>Erstellt mit ❤️ fürs Geschenk</p></footer></body></html>"

structure Entry where
  num : String
  image : String
  thumb : String
  href : String
  date : String
  desc : String
deriving DecidableEq, Repr

/-- Content of one output file of `build_site`: a processed image (the
Pillow resize/save results are abstract tokens), an HTML page, a QR PNG
(identified by the exact string it encodes), or a QR PDF sheet (a pure
function of the entry numbers whose QR files exist). -/
inductive FileContent where
  | img : Nat → FileContent
  | html : String → FileContent
  | qr : String → FileContent
  | pdf : List String → FileContent
deriving DecidableEq, Repr

/-- Line 260: `num = str(idx+1).zfill(3)` — always padded with `zfill(3)`,
independent of the total row count. -/
def siteNum (k : Nat) : String := zfill 3 (natToStr k)

/-- The detail-page path `e/{num}.html` for the `k`-th row. -/
def siteHref (k : Nat) : String := "e/" ++ siteNum k ++ ".html"

/-- Line 293: `prev_link`. -/
def prevLink (entries : List Entry) (i : Nat) : String :=
  if i > 0 then
    match entries.get? (i - 1) with
    | some p => " <a href=\"" ++ p.href ++ "\">« Vorheriger</a>"
    | none => ""
  else ""

/-- Line 294: `next_link`. -/
def nextLink (entries : List Entry) (i : Nat) : String :=
  if i < entries.length - 1 then
    match entries.get? (i + 1) with
    | some nx => " <a href=\"" ++ nx.href ++ "\">Nächster »</a>"
    | none => ""
  else ""

/-- `ENTRY_TEMPLATE` up to the `{prev_link}{next_link}` slot. -/
def entryPageHead (m : Entry) : String :=
  entryT1 ++ m.num ++ entryT2 ++ CSS ++ entryT3 ++ m.image ++ entryT4
    ++ m.date ++ entryT5 ++ md_to_html m.desc ++ entryT6

/-- `ENTRY_TEMPLATE.format(...)` (line 295). -/
def entryHtml (m : Entry) (prev next : String) : String :=
  entryPageHead m ++ prev ++ next ++ entryT7

/-- Lines 290–297: detail pages are written in entry order to
`out_dir / m["href"]`. -/
def buildPages (entries : List Entry) : List (String × FileContent) :=
  entries.enum.map (fun p =>
    (p.2.href, FileContent.html (entryHtml p.2 (prevLink entries p.1) (nextLink entries p.1))))

def MAX_IMAGE_WIDTH : Nat := 1600

def THUMB_WIDTH : Nat := 600

/-- `m["desc"].splitlines()[0].strip()` with the 120-character preview cut
(lines 302–303); `splitlines` modelled on `'\n'`. -/
def previewOf (desc : String) : String :=
  let p := if desc = "" then "" else ((desc.splitOn "\n").headD "")
  let p := pyStrip p
  if p.length > 120 then String.mk (p.data.take 120) ++ "…" else p

/-- `CARD_TEMPLATE.format(...)` (line 304). -/
def cardHtml (m : Entry) : String :=
  cardT1 ++ m.href ++ cardT2 ++ m.thumb ++ cardT3 ++ m.num ++ cardT4
    ++ m.date ++ cardT5 ++ md_to_html (previewOf m.desc) ++ cardT6

/-- `INDEX_TEMPLATE.format(css=CSS, cards="".join(cards))` (line 305). -/
def indexHtml (entries : List Entry) : String :=
  idxT1 ++ CSS ++ idxT2 ++ String.join (entries.map cardHtml) ++ idxT3

/-- The errors `build_site.main` can raise. -/
inductive SiteErr where
  | excelNotFound : SiteErr
  | imagesNotFound : SiteErr
  | missingColumn : SiteErr
  | imageNotFound : String → SiteErr
  | dateValueError : SiteErr
  | baseUrlRequired : SiteErr
deriving DecidableEq, Repr

/-- `( images_dir / img_name ).exists()` plus reading the file: first match
in the directory listing. -/
def lookupImg (images : List (String × ImageFile)) (name : String) :
    Option ImageFile :=
  (images.find? (fun p => p.1 == name)).map Prod.snd

/-- The inputs of one `build_site` run.  `xlsx`/`imagesDir` are `none` when
the path does not exist; `pdParse` abstracts `pd.to_datetime(...)`;
`resizeFn`/`thumbFn` abstract the Pillow resize-and-save operations of
`resize_copy`/`make_thumb` (pure functions of the source pixels and the
width bound). -/
structure SiteInputs where
  xlsx : Option DataFrame
  imagesDir : Option (List (String × ImageFile))
  pdParse : Cell → Option DT
  resizeFn : Nat → Nat → Nat
  thumbFn : Nat → Nat → Nat
  baseUrl : Option String
  makeQr : Bool
  qrsPdf : Bool
  labels : Bool

/-- Lines 258–288: the per-row loop.  Returns the files written so far
(assets and thumbnails, in write order) and either the entry list or the
first error.  A missing image aborts with `FileNotFoundError` before
anything of that row is written. -/
def entriesLoop (images : List (String × ImageFile)) (pdParse : Cell → Option DT)
    (resizeFn thumbFn : Nat → Nat → Nat) (cols : List String) (colImg : String)
    (colDesc : Option String) (colDate : Option String) :
    Nat → List (List Cell) → List (String × FileContent) × Except SiteErr (List Entry)
  | _, [] => ([], .ok [])
  | idx, row :: rest =>
      let num := siteNum (idx + 1)
      let imgName := pyStrip (cellStr (rowGet cols row colImg))
      match lookupImg images imgName with
      | none => ([], .error (.imageNotFound imgName))
      | some im =>
          let resized := resizeFn im.content MAX_IMAGE_WIDTH
          let fsHere := [("assets/images/" ++ imgName, FileContent.img resized),
                         ("assets/thumbs/" ++ imgName,
                           FileContent.img (thumbFn resized THUMB_WIDTH))]
          let desc := match colDesc with
                      | none => ""
                      | some cDesc =>
                          match rowGet cols row cDesc with
                          | .nan => ""
                          | v => cellStr v
          match resolve_row_date pdParse (colDate.map (fun c => rowGet cols row c)) im with
          | .error _ => (fsHere, .error .dateValueError)
          | .ok dt =>
              let e : Entry := { num := num, image := imgName,
                                 thumb := "assets/thumbs/" ++ imgName,
                                 href := "e/" ++ num ++ ".html",
                                 date := fmtDisplayDate dt, desc := desc }
              let pr := entriesLoop images pdParse resizeFn thumbFn cols colImg
                          colDesc colDate (idx + 1) rest
              (fsHere ++ pr.1,
               match pr.2 with
               | .ok es => .ok (e :: es)
               | .error er => .error er)

/-- `build_site.main` (lines 217–324) as a function from the previous
output-directory contents and the inputs to the final output-directory
contents (path, content, in write order) and the raised error, if any.  The
existence checks of lines 241–242 come before the `shutil.rmtree(out_dir)`
of line 244, which erases the previous output; everything written after
that point is a function of the inputs alone. -/
def runBuildSite (prev : List (String × FileContent)) (inp : SiteInputs) :
    List (String × FileContent) × Option SiteErr :=
  match inp.xlsx with
  | none => (prev, some .excelNotFound)
  | some df =>
      match inp.imagesDir with
      | none => (prev, some .imagesNotFound)
      | some images =>
          match dictGet (colsMap df.cols) "bildname" with
          | none => ([], some .missingColumn)
          | some colImg =>
              let colDesc := match dictGet (colsMap df.cols) "beschreibung" with
                             | some c => some c
                             | none => dictGet (colsMap df.cols) "text"
              let colDate := find_date_column df.cols
              let pr := entriesLoop images inp.pdParse inp.resizeFn inp.thumbFn
                          df.cols colImg colDesc colDate 0 df.rows
              match pr.2 with
              | .error e => (pr.1, some e)
              | .ok entries =>
                  let fs := pr.1 ++ buildPages entries
                              ++ [("index.html", FileContent.html (indexHtml entries))]
                  if inp.makeQr || inp.qrsPdf || inp.labels then
                    match inp.baseUrl with
                    | none => (fs, some .baseUrlRequired)
                    | some u =>
                        let qrs := entries.map (fun m =>
                          ("assets/qrcodes/" ++ m.num ++ ".png",
                           FileContent.qr (u ++ "/" ++ m.href)))
                        let fs := fs ++ qrs
                        let fs := if inp.qrsPdf then
                            fs ++ [("qrcodes.pdf", FileContent.pdf (entries.map Entry.num))]
                          else fs
                        let fs := if inp.labels then
                            fs ++ [("qrcodes_labels.pdf", FileContent.pdf (entries.map Entry.num))]
                          else fs
                        (fs, none)
                  else (fs, none)

/-- C3.  With the spreadsheet and the images directory present, the entire
output of `build_site` — detail pages, index, QR contents, PDFs — does not
depend on what was in the output directory before the run (line 244 removes
it), so two runs over the same inputs produce identical output and a re-run
over its own output reproduces it exactly. -/
theorem site_output_deterministic_idempotent
    (prev1 prev2 : List (String × FileContent)) (inp : SiteInputs)
    (df : DataFrame) (images : List (String × ImageFile))
    (hx : inp.xlsx = some df) (hi : inp.imagesDir = some images) :
    runBuildSite prev1 inp = runBuildSite prev2 inp ∧
    runBuildSite (runBuildSite prev1 inp).1 inp = runBuildSite prev1 inp := by
  have key : ∀ prev prev' : List (String × FileContent),
      runBuildSite prev inp = runBuildSite prev' inp := by
    intro prev prev'
    unfold runBuildSite
    rw [hx, hi]
  exact ⟨key _ _, key _ _⟩

/-- Concrete run for C3: one row, one image, no QR flags. -/
def c3df : DataFrame := { cols := ["Bildname"], rows := [[Cell.val "a.jpg"]] }

def c3img : ImageFile :=
  { exifDTO := none, exifDTD := none, exifDT := none,
    mtime := ⟨2020, 1, 1, 0, 0, 0⟩, content := 7 }

def c3inp : SiteInputs :=
  { xlsx := some c3df, imagesDir := some [("a.jpg", c3img)],
    pdParse := fun _ => none, resizeFn := fun c _ => c, thumbFn := fun c _ => c,
    baseUrl := none, makeQr := false, qrsPdf := false, labels := false }

theorem site_output_deterministic_idempotent_witness :
    c3inp.xlsx = some c3df ∧
      runBuildSite [("stale.html", FileContent.html "old")] c3inp
        = runBuildSite [] c3inp :=
  ⟨rfl, (site_output_deterministic_idempotent
      [("stale.html", FileContent.html "old")] [] c3inp c3df
      [("a.jpg", c3img)] rfl rfl).1⟩

/-- C8.  Each detail page is rendered from its entry and its neighbours:
pages are produced in entry (spreadsheet row) order under the entries'
paths; the page of entry `i` embeds `prevLink`/`nextLink` in its nav slot,
where the previous-page link is present targeting entry `i-1`'s page
exactly when `i > 0` and the next-page link is present targeting entry
`i+1`'s page exactly when `i < n-1`. -/
theorem detail_pages_prev_next_links (entries : List Entry) (i : Nat)
    (_hi : i < entries.length) :
    (buildPages entries).map Prod.fst = entries.map Entry.href ∧
    (∀ m, entries.get? i = some m →
      (buildPages entries).get? i
        = some (m.href, FileContent.html
            (entryHtml m (prevLink entries i) (nextLink entries i)))) ∧
    prevLink entries 0 = "" ∧
    (0 < i → ∀ p, entries.get? (i - 1) = some p →
      prevLink entries i = " <a href=\"" ++ p.href ++ "\">« Vorheriger</a>") ∧
    (i = entries.length - 1 → nextLink entries i = "") ∧
    (i + 1 < entries.length → ∀ nx, entries.get? (i + 1) = some nx →
      nextLink entries i = " <a href=\"" ++ nx.href ++ "\">Nächster »</a>") ∧
    (∀ m p nx, entryHtml m p nx = entryPageHead m ++ p ++ nx ++ entryT7) :=
  by
  refine ⟨?_, ?_, ?_, ?_, ?_, ?_, ?_⟩
  · unfold buildPages
    rw [List.map_map]
    exact enum_map_snd_fun entries Entry.href
  · intro m hm
    unfold buildPages
    rw [List.get?_map, List.get?_enum, hm]
    rfl
  · unfold prevLink
    simp
  · intro hpos p hp
    unfold prevLink
    rw [if_pos hpos, hp]
  · intro he
    unfold nextLink
    rw [if_neg (by omega)]
  · intro hlt nx hx
    unfold nextLink
    rw [if_pos (by omega), hx]
  · intro m p nx
    rfl

def c8e1 : Entry :=
  { num := "001", image := "a.jpg", thumb := "assets/thumbs/a.jpg",
    href := "e/001.html", date := "01.01.2020", desc := "" }

def c8e2 : Entry :=
  { num := "002", image := "b.jpg", thumb := "assets/thumbs/b.jpg",
    href := "e/002.html", date := "02.01.2020", desc := "" }

theorem detail_pages_prev_next_links_witness :
    1 < [c8e1, c8e2].length ∧ prevLink [c8e1, c8e2] 0 = "" :=
  ⟨by decide,
   (detail_pages_prev_next_links [c8e1, c8e2] 1 (by decide)).2.2.1⟩

/-- The date cell of a row cannot raise: either there is no date column, or
the cell is not the one five-character literal `\dddd` that crashes
`safe_date_from_excel`. -/
def dateCellOk (colDate : Option String) (cols : List String)
    (row : List Cell) : Bool :=
  match colDate with
  | none => true
  | some c =>
      match rowGet cols row c with
      | .nan => true
      | .val s => ! decide ((pyStrip (cellStr (.val s))).data = ['\\', 'd', 'd', 'd', 'd'])

theorem resolve_row_date_ok (pdParse : Cell → Option DT)
    (colDate : Option String) (cols : List String) (row : List Cell)
    (im : ImageFile) (hok : dateCellOk colDate cols row = true) :
    ∃ d, resolve_row_date pdParse (colDate.map (fun c => rowGet cols row c)) im
        = .ok d := by
  cases colDate with
  | none =>
    unfold resolve_row_date
    simp only [Option.map_none']
    cases hx : exif_datetime im with
    | some d => exact ⟨d, rfl⟩
    | none => exact ⟨im.mtime, rfl⟩
  | some c =>
    have hok2 : (match rowGet cols row c with
        | Cell.nan => true
        | Cell.val s =>
            ! decide ((pyStrip (cellStr (.val s))).data = ['\\', 'd', 'd', 'd', 'd']))
        = true := hok
    unfold resolve_row_date safe_date_from_excel
    simp only [Option.map_some']
    cases hv : rowGet cols row c with
    | nan =>
      cases hx : exif_datetime im with
      | some d => exact ⟨d, rfl⟩
      | none => exact ⟨im.mtime, rfl⟩
    | val s =>
      rw [hv] at hok2
      simp only [Bool.not_eq_true', decide_eq_false_iff_not] at hok2
      show ∃ d,
        (match (if (pyStrip (cellStr (Cell.val s))).data = ['\\', 'd', 'd', 'd', 'd']
            then (Except.error () : Except Unit (Option DT))
            else Except.ok (pdParse (Cell.val s))) with
          | Except.error e => Except.error e
          | Except.ok (some d) => Except.ok d
          | Except.ok none =>
              match exif_datetime im with
              | some d => Except.ok d
              | none => Except.ok im.mtime) = Except.ok d
      rw [if_neg hok2]
      cases hp : pdParse (.val s) with
      | some d => exact ⟨d, rfl⟩
      | none =>
        cases hx : exif_datetime im with
        | some d => exact ⟨d, rfl⟩
        | none => exact ⟨im.mtime, rfl⟩

/-- All files written by the row loop are processed images, never HTML. -/
theorem entriesLoop_files_img (images : List (String × ImageFile))
    (pdParse : Cell → Option DT) (resizeFn thumbFn : Nat → Nat → Nat)
    (cols : List String) (colImg : String) (colDesc colDate : Option String) :
    ∀ rows idx, ∀ pc ∈ (entriesLoop images pdParse resizeFn thumbFn cols colImg
        colDesc colDate idx rows).1, ∃ dta, pc.2 = FileContent.img dta := by
  intro rows
  induction rows with
  | nil => intro idx pc hpc; simp [entriesLoop] at hpc
  | cons row rest ih =>
    intro idx pc hpc
    unfold entriesLoop at hpc
    simp only at hpc
    split at hpc
    · simp at hpc
    · split at hpc
      · simp only [List.mem_cons] at hpc
        rcases hpc with h | h | h
        · subst h; exact ⟨_, rfl⟩
        · subst h; exact ⟨_, rfl⟩
        · simp at h
      · simp only [List.mem_append, List.mem_cons] at hpc
        rcases hpc with (h | h | h) | h
        · subst h; exact ⟨_, rfl⟩
        · subst h; exact ⟨_, rfl⟩
        · simp at h
        · exact ih (idx + 1) pc h

/-- If every date cell is harmless and some row references a missing image,
the row loop stops with `FileNotFoundError`. -/
theorem entriesLoop_missing (images : List (String × ImageFile))
    (pdParse : Cell → Option DT) (resizeFn thumbFn : Nat → Nat → Nat)
    (cols : List String) (colImg : String) (colDesc colDate : Option String) :
    ∀ rows idx,
    (∀ row ∈ rows, dateCellOk colDate cols row = true) →
    (∃ row ∈ rows,
        lookupImg images (pyStrip (cellStr (rowGet cols row colImg))) = none) →
    ∃ name, (entriesLoop images pdParse resizeFn thumbFn cols colImg colDesc
        colDate idx rows).2 = .error (.imageNotFound name) := by
  intro rows
  induction rows with
  | nil => intro idx _ hex; simp at hex
  | cons row rest ih =>
    intro idx hok hex
    unfold entriesLoop
    simp only
    split
    · exact ⟨_, rfl⟩
    · rename_i im hl
      obtain ⟨d, hd⟩ :=
        resolve_row_date_ok pdParse colDate cols row im (hok row (by simp))
      rw [hd]
      have hex' : ∃ row' ∈ rest,
          lookupImg images (pyStrip (cellStr (rowGet cols row' colImg))) = none := by
        obtain ⟨row', hmem, hnone⟩ := hex
        rcases List.mem_cons.mp hmem with heq | hmem'
        · subst heq; rw [hl] at hnone; exact absurd hnone (by simp)
        · exact ⟨row', hmem', hnone⟩
      obtain ⟨name, hname⟩ := ih (idx + 1)
        (fun r hr => hok r (by simp [hr])) hex'
      rw [hname]
      exact ⟨name, rfl⟩

/-- If every row's image exists and every date cell is harmless, the row
loop succeeds; the entry numbers are `zfill(3)` of the 1-based row indices
in row order, and each href is `e/{num}.html`. -/
theorem entriesLoop_ok (images : List (String × ImageFile))
    (pdParse : Cell → Option DT) (resizeFn thumbFn : Nat → Nat → Nat)
    (cols : List String) (colImg : String) (colDesc colDate : Option String) :
    ∀ rows idx,
    (∀ row ∈ rows,
        (lookupImg images (pyStrip (cellStr (rowGet cols row colImg)))).isSome
          = true) →
    (∀ row ∈ rows, dateCellOk colDate cols row = true) →
    ∃ entries, (entriesLoop images pdParse resizeFn thumbFn cols colImg colDesc
        colDate idx rows).2 = .ok entries ∧
      entries.map Entry.num = (List.range' (idx + 1) rows.length).map siteNum ∧
      (∀ m ∈ entries, m.href = "e/" ++ m.num ++ ".html") := by
  intro rows
  induction rows with
  | nil =>
    intro idx _ _
    exact ⟨[], rfl, by simp, by simp⟩
  | cons row rest ih =>
    intro idx hall hok
    unfold entriesLoop
    simp only
    split
    · rename_i hl
      have := hall row (by simp)
      rw [hl] at this
      simp at this
    · rename_i im hl
      obtain ⟨d, hd⟩ :=
        resolve_row_date_ok pdParse colDate cols row im (hok row (by simp))
      rw [hd]
      obtain ⟨es, hes, hnum, hhref⟩ := ih (idx + 1)
        (fun r hr => hall r (by simp [hr]))
        (fun r hr => hok r (by simp [hr]))
      rw [hes]
      refine ⟨_, rfl, ?_, ?_⟩
      · show siteNum (idx + 1) :: es.map Entry.num
          = (List.range' (idx + 1) (rest.length + 1)).map siteNum
        rw [List.range'_succ, List.map_cons, hnum]
      · intro m hm
        rcases List.mem_cons.mp hm with heq | hm'
        · subst heq; rfl
        · exact hhref m hm'

/-- C4.  With the spreadsheet and images directory present and the required
`Bildname` column found (and no pathological date cell), a spreadsheet row
whose referenced image does not exist makes `build_site` raise
`FileNotFoundError`, and the run writes no detail or index HTML page at
all — HTML is written only when every row's image exists. -/
theorem site_missing_image_no_html (prev : List (String × FileContent))
    (inp : SiteInputs) (df : DataFrame) (images : List (String × ImageFile))
    (colImg : String)
    (hx : inp.xlsx = some df) (hi : inp.imagesDir = some images)
    (hcol : dictGet (colsMap df.cols) "bildname" = some colImg)
    (hdate : ∀ row ∈ df.rows,
        dateCellOk (find_date_column df.cols) df.cols row = true)
    (hmiss : ∃ row ∈ df.rows,
        lookupImg images (pyStrip (cellStr (rowGet df.cols row colImg))) = none) :
    (∃ name, (runBuildSite prev inp).2 = some (.imageNotFound name)) ∧
    (∀ pc ∈ (runBuildSite prev inp).1, ∀ s, pc.2 ≠ FileContent.html s) := by
  obtain ⟨name, hname⟩ := entriesLoop_missing images inp.pdParse inp.resizeFn
    inp.thumbFn df.cols colImg
    (match dictGet (colsMap df.cols) "beschreibung" with
     | some c => some c
     | none => dictGet (colsMap df.cols) "text")
    (find_date_column df.cols) df.rows 0 hdate hmiss
  constructor
  · refine ⟨name, ?_⟩
    simp only [runBuildSite, hx, hi, hcol]
    rw [hname]
  · intro pc hpc s hcontra
    simp only [runBuildSite, hx, hi, hcol] at hpc
    rw [hname] at hpc
    simp only at hpc
    obtain ⟨dta, hdta⟩ := entriesLoop_files_img images inp.pdParse inp.resizeFn
      inp.thumbFn df.cols colImg _ _ df.rows 0 pc hpc
    rw [hdta] at hcontra
    exact absurd hcontra (by simp)

/-- Concrete input for C4: the single row references `missing.jpg`, which is
not in the images directory. -/
def c4df : DataFrame := { cols := ["Bildname"], rows := [[Cell.val "missing.jpg"]] }

def c4inp : SiteInputs :=
  { xlsx := some c4df, imagesDir := some [("a.jpg", c3img)],
    pdParse := fun _ => none, resizeFn := fun c _ => c, thumbFn := fun c _ => c,
    baseUrl := none, makeQr := false, qrsPdf := false, labels := false }

theorem site_missing_image_no_html_witness :
    (∃ row ∈ c4df.rows,
        lookupImg [("a.jpg", c3img)]
          (pyStrip (cellStr (rowGet c4df.cols row "Bildname"))) = none) ∧
    (∃ name, (runBuildSite [] c4inp).2 = some (.imageNotFound name)) :=
  ⟨⟨[Cell.val "missing.jpg"], by decide, by decide⟩,
   (site_missing_image_no_html [] c4inp c4df [("a.jpg", c3img)] "Bildname"
      rfl rfl (by decide) (by decide)
      ⟨[Cell.val "missing.jpg"], by decide, by decide⟩).1⟩

theorem url_assoc (u s : String) :
    u ++ "/" ++ ("e/" ++ s ++ ".html") = u ++ "/e/" ++ s ++ ".html" := by
  simp only [String.append_assoc]
  rw [show ("/" ++ ("e/" ++ (s ++ ".html")) : String)
      = ("/" ++ "e/") ++ (s ++ ".html") from (String.append_assoc _ _ _).symm]
  rfl

/-- C5.  When QR generation is enabled with a base URL, a successful
`build_site` run emits exactly one QR file per spreadsheet row, named after
the row's entry number, and the string each QR encodes is
`base_url ++ "/e/" ++ num ++ ".html"` — the row's own detail-page URL.  The
numbers (hence the QR files) are pairwise distinct and follow row order. -/
theorem site_qr_per_row (prev : List (String × FileContent)) (inp : SiteInputs)
    (df : DataFrame) (images : List (String × ImageFile)) (colImg : String)
    (u : String)
    (hx : inp.xlsx = some df) (hi : inp.imagesDir = some images)
    (hcol : dictGet (colsMap df.cols) "bildname" = some colImg)
    (hall : ∀ row ∈ df.rows,
        (lookupImg images (pyStrip (cellStr (rowGet df.cols row colImg)))).isSome
          = true)
    (hdate : ∀ row ∈ df.rows,
        dateCellOk (find_date_column df.cols) df.cols row = true)
    (hq : inp.makeQr = true) (hu : inp.baseUrl = some u)
    (hp : inp.qrsPdf = false) (hl : inp.labels = false) :
    (runBuildSite prev inp).2 = none ∧
    ∃ (fs0 : List (String × FileContent)) (entries : List Entry),
      (runBuildSite prev inp).1
          = fs0 ++ entries.map (fun m =>
              ("assets/qrcodes/" ++ m.num ++ ".png",
               FileContent.qr (u ++ "/e/" ++ m.num ++ ".html"))) ∧
      entries.map Entry.num = (List.range' 1 df.rows.length).map siteNum ∧
      (entries.map Entry.num).Nodup := by
  obtain ⟨entries, hes, hnum, hhref⟩ := entriesLoop_ok images inp.pdParse
    inp.resizeFn inp.thumbFn df.cols colImg
    (match dictGet (colsMap df.cols) "beschreibung" with
     | some c => some c
     | none => dictGet (colsMap df.cols) "text")
    (find_date_column df.cols) df.rows 0 hall hdate
  have hnum' : entries.map Entry.num = (List.range' 1 df.rows.length).map siteNum := by
    simpa using hnum
  have hqrs : entries.map (fun m =>
        ("assets/qrcodes/" ++ m.num ++ ".png",
         FileContent.qr (u ++ "/" ++ m.href)))
      = entries.map (fun m =>
        ("assets/qrcodes/" ++ m.num ++ ".png",
         FileContent.qr (u ++ "/e/" ++ m.num ++ ".html"))) := by
    apply List.map_congr_left
    intro m hm
    rw [hhref m hm, url_assoc]
  refine ⟨?_, ?_⟩
  · simp only [runBuildSite, hx, hi, hcol]
    rw [hes, hq, hp, hl, hu]
    rfl
  · refine ⟨(entriesLoop images inp.pdParse inp.resizeFn inp.thumbFn df.cols
        colImg
        (match dictGet (colsMap df.cols) "beschreibung" with
         | some c => some c
         | none => dictGet (colsMap df.cols) "text")
        (find_date_column df.cols) 0 df.rows).1
        ++ buildPages entries
        ++ [("index.html", FileContent.html (indexHtml entries))],
      entries, ?_, hnum', ?_⟩
    · simp only [runBuildSite, hx, hi, hcol]
      rw [hes, hq, hp, hl, hu]
      show ((entriesLoop images inp.pdParse inp.resizeFn inp.thumbFn df.cols
          colImg
          (match dictGet (colsMap df.cols) "beschreibung" with
           | some c => some c
           | none => dictGet (colsMap df.cols) "text")
          (find_date_column df.cols) 0 df.rows).1
          ++ buildPages entries
          ++ [("index.html", FileContent.html (indexHtml entries))])
          ++ entries.map (fun m =>
              ("assets/qrcodes/" ++ m.num ++ ".png",
               FileContent.qr (u ++ "/" ++ m.href))) = _
      rw [hqrs]
    · rw [hnum']
      exact List.Nodup.map (fun a b h => zfill_natToStr_inj h)
        (List.nodup_range' 1 df.rows.length)

def c5df : DataFrame := { cols := ["Bildname"], rows := [[Cell.val "a.jpg"]] }

def c5inp : SiteInputs :=
  { xlsx := some c5df, imagesDir := some [("a.jpg", c3img)],
    pdParse := fun _ => none, resizeFn := fun c _ => c, thumbFn := fun c _ => c,
    baseUrl := some "https://ex.org", makeQr := true, qrsPdf := false,
    labels := false }

theorem site_qr_per_row_witness :
    (∀ row ∈ c5df.rows,
        (lookupImg [("a.jpg", c3img)]
          (pyStrip (cellStr (rowGet c5df.cols row "Bildname")))).isSome = true) ∧
      (runBuildSite [] c5inp).2 = none :=
  ⟨by decide,
   (site_qr_per_row [] c5inp c5df [("a.jpg", c3img)] "Bildname" "https://ex.org"
      rfl rfl (by decide) (by decide) (by decide) rfl rfl rfl rfl).1⟩

/-- C10.  `build_site` numbers the `k`-th row with `str(k).zfill(3)`
independently of the total row count, and for spreadsheets of at most 999
rows the detail-page URL `base_url/` + `e/{num}.html` coincides with the
Link `{base_url}/e/{ID}.html` that `build_excel_from_images` prefills for
the same row position (its ID padding `max(3, digits of n)` is then 3). -/
theorem site_num_matches_excel_link (n k : Nat) (u : String)
    (_h1 : 1 ≤ k) (_h2 : k ≤ n) (h3 : n ≤ 999) :
    siteNum k = zfill 3 (natToStr k) ∧
    excelId n k = siteNum k ∧
    excelLink u n k = u ++ "/" ++ siteHref k := by
  have hpad : excelPad n = 3 := by
    unfold excelPad
    have hle : (natToStr n).length ≤ (natToStr 999).length := length_natToStr_mono h3
    have h999 : (natToStr 999).length = 3 := rfl
    omega
  have hid : excelId n k = siteNum k := by
    unfold excelId siteNum
    rw [hpad]
  refine ⟨rfl, hid, ?_⟩
  unfold excelLink siteHref
  rw [hid]
  exact (url_assoc u (siteNum k)).symm

theorem site_num_matches_excel_link_witness :
    (1 ≤ 7 ∧ 7 ≤ 250 ∧ 250 ≤ 999) ∧
      excelLink "https://example.org" 250 7
        = "https://example.org" ++ "/" ++ siteHref 7 :=
  ⟨by decide,
   (site_num_matches_excel_link 250 7 "https://example.org"
      (by decide) (by decide) (by decide)).2.2⟩
